import Mathlib

/-!
Shallow embedding of `src/sidecarTransformer.ts` of the
graphql-sidecar-transformer repository, together with theorems settling the
frozen claims about it.

The file embeds, in order: the CloudFormation intrinsic-value expressions the
transformer builds (`CfnValue`), the mapping-template expression trees
(`VTL`, `MappingTemplate`), the external naming library and global constants
the transformer consumes, the string utilities
(`referencesEnv`, `removeEnvReference`, `lambdaArnKey`, `lambdaArnResource`),
the transformer context (registry), and the three methods of the
`SidecarTransformer` class (`validateObject`, `createLambdaFunctionResources`,
`createSidecarResolver`) plus its entry point `object`.
-/

/-! ## Substring matching

JavaScript regex operations used by the source are embedded as explicit
substring scanning on character lists.  `value.match(/(\x24\x7benv\x7d)/)` is a
containment test for the literal text, and
`value.replace(/(-\x24\x7benv\x7d)/, "")` removes the first occurrence of the
literal text (a non-global one-group regex replaces only the first match). -/

/-- Does `pat` occur as a contiguous substring of `s`? -/
def containsSub (pat : List Char) : List Char → Bool
  | [] => pat.isEmpty
  | c :: tl => pat.isPrefixOf (c :: tl) || containsSub pat tl

/-- Remove the first (leftmost) occurrence of `pat` from `s`; `s` unchanged
when `pat` does not occur. -/
def removeFirstSub (pat : List Char) : List Char → List Char
  | [] => []
  | c :: tl =>
    if pat.isPrefixOf (c :: tl) then (c :: tl).drop pat.length
    else c :: removeFirstSub pat tl

/-! ## CloudFormation value expressions (cloudform-types `Fn`)

The source builds deferred CloudFormation intrinsic expressions via the
external `cloudform-types` library; they are embedded as a tagged tree.
Literal `\x7b` / `\x7d` below denote the brace characters of the CFN
pseudo-parameter syntax. -/

/-- A deferred CloudFormation value: a literal string or an intrinsic
function application (`Fn::If`, `Fn::Sub`, `Ref`, `Fn::GetAtt`, `Fn::Join`). -/
inductive CfnValue where
  | str (s : String)
  | fnIf (condition : String) (ifTrue ifFalse : CfnValue)
  | fnSub (template : String) (substitutions : List (String × CfnValue))
  | fnRef (logicalName : String)
  | fnGetAtt (logicalName attributeName : String)
  | fnJoin (delimiter : String) (values : List CfnValue)

/-! ## Mapping-template expression trees (graphql-mapping-template) -/

/-- Expression tree of the external `graphql-mapping-template` library:
only the constructors the source uses. -/
inductive VTL where
  | str (s : String)
  | raw (s : String)
  | ref (s : String)
  | qref (s : String)
  | obj (fields : List (String × VTL))
  | iff (condition body : VTL)
  | compoundExpression (expressions : List VTL)

/-- A request/response mapping template: either a `printBlock(comment)(expr)`
rendering of an expression tree (the external renderer is pure, so the
unrendered pair is kept), or a plain literal string. -/
inductive MappingTemplate where
  | printed (comment : String) (body : VTL)
  | plain (s : String)

/-! ## External naming library and global constants

`FunctionResourceIDs`, `plurality` and `ResourceConstants` come from the
external `graphql-transformer-common` package, which the spec treats as a
pure lookup library. -/

/-- Modelled from the spec: external `FunctionResourceIDs.FunctionDataSourceID`
(Naming Resolver, data-source purpose) — a pure deterministic key from
`(name, region)`, distinct per purpose. -/
def FunctionDataSourceID (name : String) (region : Option String) : String :=
  name ++ region.getD "" ++ "LambdaDataSource"

/-- Modelled from the spec: external `FunctionResourceIDs.FunctionIAMRoleID`
(Naming Resolver, role purpose). -/
def FunctionIAMRoleID (name : String) (region : Option String) : String :=
  FunctionDataSourceID name region ++ "Role"

/-- Modelled from the spec: external
`FunctionResourceIDs.FunctionAppSyncFunctionConfigurationID`
(Naming Resolver, function-configuration purpose). -/
def FunctionAppSyncFunctionConfigurationID
    (name : String) (region : Option String) : String :=
  "Invoke" ++ FunctionDataSourceID name region

/-- Modelled from the spec: external `FunctionResourceIDs.FunctionIAMRoleName`
(human-readable role display name; exact shape is not claim-relevant). -/
def FunctionIAMRoleName (name : String) (withEnv : Bool) : String :=
  name ++ (if withEnv then "Env" else "") ++ "Role"

/-- Modelled from the spec: external `plurality(value, true)` — the plural
form of a field name (empty input stays empty). -/
def plurality (value : String) (_improvePluralization : Bool) : String :=
  if value.isEmpty then value else value ++ "s"

/-- External `ResourceConstants.PARAMETERS.Env` logical parameter name. -/
def PARAMETERS_Env : String := "env"

/-- External `ResourceConstants.CONDITIONS.HasEnvironmentParameter`
deployment condition name. -/
def CONDITIONS_HasEnvironmentParameter : String := "HasEnvironmentParameter"

/-- External `ResourceConstants.RESOURCES.GraphQLAPILogicalID`. -/
def RESOURCES_GraphQLAPILogicalID : String := "GraphQLAPI"

/-- The single constant stack group tag (`SIDECAR_DIRECTIVE_STACK`). -/
def SIDECAR_DIRECTIVE_STACK : String := "FunctionDirectiveStack"

/-! ## Naming and address helpers of the source -/

/-- The environment placeholder token `\x24\x7benv\x7d`. -/
def envToken : String := "$\x7benv\x7d"

/-- The hyphen-prefixed environment placeholder `-\x24\x7benv\x7d`. -/
def dashEnvToken : String := "-$\x7benv\x7d"

/-- `lambdaArnKey(name, region)`: the Lambda address template, region-qualified
when a region is supplied, pseudo-parameter-region-qualified otherwise. -/
def lambdaArnKey (name : String) (region : Option String) : String :=
  match region with
  | some r =>
    "arn:aws:lambda:" ++ r ++ ":$\x7bAWS::AccountId\x7d:function:" ++ name
  | none =>
    "arn:aws:lambda:$\x7bAWS::Region\x7d:$\x7bAWS::AccountId\x7d:function:"
      ++ name

/-- `referencesEnv(value)`: does the name contain the environment placeholder
anywhere? -/
def referencesEnv (value : String) : Bool :=
  containsSub envToken.data value.data

/-- `removeEnvReference(value)`: strip the first occurrence of the
hyphen-prefixed placeholder `-\x24\x7benv\x7d`. -/
def removeEnvReference (value : String) : String :=
  String.mk (removeFirstSub dashEnvToken.data value.data)

/-- `lambdaArnResource(name, region)`: the two-branch conditional address
expression (Conditional Address Builder). -/
def lambdaArnResource (name : String) (region : Option String) : CfnValue :=
  let substitutions : List (String × CfnValue) :=
    if referencesEnv name then [("env", CfnValue.fnRef PARAMETERS_Env)] else []
  CfnValue.fnIf CONDITIONS_HasEnvironmentParameter
    (CfnValue.fnSub (lambdaArnKey name region) substitutions)
    (CfnValue.fnSub (lambdaArnKey (removeEnvReference name) region) [])

/-! ## Resource descriptors (cloudform-types resources)

One constructor per resource class the source instantiates, with the fields
the source sets.  `dependsOnList` records the `dependsOn` edges placed on the
descriptor (empty when the source places none, as for the role). -/

/-- A resource descriptor inserted into the registry. -/
inductive Resource where
  | iamRole (RoleName : CfnValue) (assumeRoleService assumeRoleAction : String)
      (policyName : String) (policyActions : List String)
      (policyResource : CfnValue)
  | dataSource (ApiId : CfnValue) (Name dsType : String)
      (ServiceRoleArn LambdaFunctionArn : CfnValue)
      (dependsOnList : List String)
  | functionConfiguration (ApiId : CfnValue)
      (Name DataSourceName FunctionVersion : String)
      (RequestMappingTemplate ResponseMappingTemplate : MappingTemplate)
      (dependsOnList : List String)
  | resolver (ApiId : CfnValue)
      (TypeName FieldName Kind DataSourceName : String)
      (RequestMappingTemplate ResponseMappingTemplate : MappingTemplate)
      (dependsOnList : List String)

/-- The dependency edges recorded on a descriptor. -/
def Resource.dependsOn : Resource → List String
  | .iamRole _ _ _ _ _ _ => []
  | .dataSource _ _ _ _ _ deps => deps
  | .functionConfiguration _ _ _ _ _ _ deps => deps
  | .resolver _ _ _ _ _ _ _ deps => deps

/-! ## The transformer context (registry)

The external `TransformerContext` is a key-value resource registry plus a
resource-to-stack side table.  `setResource` is overwrite-capable
(a map assignment); `getResource` is a lookup.  `opLog` records every
registry write in call order, and `attachLog` records every invocation of
the Resolver Attacher with its arguments, so that call-count and
call-order claims are stated as facts about data. -/

/-- One registry write. -/
inductive RegistryOp where
  | setResource (key : String)
  | mapResourceToStack (stackName key : String)

/-- One Resolver Attacher invocation:
`(typeName, fieldName, sidecarLambdaFunctionId, sidecarLambdaDataSourceName)`. -/
structure ResolverCall where
  typeName : String
  fieldName : String
  sidecarLambdaFunctionId : String
  sidecarLambdaDataSourceName : String

/-- The accumulating transformer context. -/
structure TransformerContext where
  resources : List (String × Resource)
  stackMapping : List (String × String)
  opLog : List RegistryOp
  attachLog : List ResolverCall

/-- The empty context. -/
def TransformerContext.empty : TransformerContext := ⟨[], [], [], []⟩

/-- Overwrite-or-append update of an association list at key `k`. -/
def setEntry {α : Type} (l : List (String × α)) (k : String) (v : α) :
    List (String × α) :=
  if l.any (fun p => p.1 == k) then
    l.map (fun p => if p.1 == k then (k, v) else p)
  else l ++ [(k, v)]

/-- `ctx.getResource(key)`. -/
def TransformerContext.getResource (ctx : TransformerContext) (key : String) :
    Option Resource :=
  (ctx.resources.find? (fun p => p.1 == key)).map Prod.snd

/-- `ctx.setResource(key, resource)`, logged. -/
def TransformerContext.setResource (ctx : TransformerContext) (key : String)
    (resource : Resource) : TransformerContext :=
  { ctx with
    resources := setEntry ctx.resources key resource
    opLog := ctx.opLog ++ [RegistryOp.setResource key] }

/-- `ctx.mapResourceToStack(stackName, key)`, logged. -/
def TransformerContext.mapResourceToStack (ctx : TransformerContext)
    (stackName key : String) : TransformerContext :=
  { ctx with
    stackMapping := setEntry ctx.stackMapping key stackName
    opLog := ctx.opLog ++ [RegistryOp.mapResourceToStack stackName key] }

/-! ## Schema-side inputs -/

/-- The annotated type definition: its name and (optionally absent) list of
directive names attached to it. -/
structure ObjectTypeDefinitionNode where
  name : String
  directives : Option (List String)

/-- The `@sidecar` directive occurrence, already reduced to its arguments
(the external `getDirectiveArguments` extraction): required `name`,
optional `region`. -/
structure DirectiveNode where
  name : String
  region : Option String

/-- The typed error raised on directive misuse. -/
inductive TransformerError where
  | invalidDirective (message : String)

/-! ## The SidecarTransformer methods -/

/-- `validateObject(definition)`: requires some directives to be present and a
`model` directive among them. -/
def validateObject (definition : ObjectTypeDefinitionNode) :
    Except TransformerError Unit :=
  match definition.directives with
  | none =>
    Except.error
      (TransformerError.invalidDirective "Type does not have any directives.")
  | some direcectives =>
    match direcectives.find? (fun dir => dir == "model") with
    | none =>
      Except.error (TransformerError.invalidDirective
        "Types annotated with @sidecar must also be annotated with @model.")
    | some _ => Except.ok ()

/-- The IAM role descriptor built for `(name, region)`. -/
def roleResource (name : String) (region : Option String) : Resource :=
  Resource.iamRole
    (CfnValue.fnIf CONDITIONS_HasEnvironmentParameter
      (CfnValue.fnJoin "-"
        [CfnValue.str (FunctionIAMRoleName name true),
         CfnValue.fnGetAtt RESOURCES_GraphQLAPILogicalID "ApiId",
         CfnValue.fnRef PARAMETERS_Env])
      (CfnValue.fnJoin "-"
        [CfnValue.str (FunctionIAMRoleName name false),
         CfnValue.fnGetAtt RESOURCES_GraphQLAPILogicalID "ApiId"]))
    "appsync.amazonaws.com" "sts:AssumeRole"
    "InvokeLambdaFunction" ["lambda:InvokeFunction"]
    (lambdaArnResource name region)

/-- The AppSync data-source descriptor built for `(name, region)`. -/
def dataSourceResource (name : String) (region : Option String)
    (iamRoleId sidecarLambdaDataSourceName : String) : Resource :=
  Resource.dataSource
    (CfnValue.fnGetAtt RESOURCES_GraphQLAPILogicalID "ApiId")
    sidecarLambdaDataSourceName "AWS_LAMBDA"
    (CfnValue.fnGetAtt iamRoleId "Arn")
    (lambdaArnResource name region)
    [iamRoleId]

/-- The AppSync function-configuration descriptor built for `(name, region)`. -/
def functionConfigResource
    (sidecarLambdaFunctionId sidecarLambdaDataSourceName : String) : Resource :=
  Resource.functionConfiguration
    (CfnValue.fnGetAtt RESOURCES_GraphQLAPILogicalID "ApiId")
    sidecarLambdaFunctionId sidecarLambdaDataSourceName "2018-05-29"
    (MappingTemplate.printed
      ("Invoke AWS Lambda data source: " ++ sidecarLambdaDataSourceName)
      (VTL.obj
        [("version", VTL.str "2018-05-29"),
         ("operation", VTL.str "Invoke"),
         ("payload", VTL.obj
           [("typeName", VTL.str "$ctx.stash.get(\"typeName\")"),
            ("fieldName", VTL.str "$ctx.stash.get(\"fieldName\")"),
            ("arguments", VTL.ref "util.toJson($ctx.arguments)"),
            ("identity", VTL.ref "util.toJson($ctx.identity)"),
            ("source", VTL.ref "util.toJson($ctx.source)"),
            ("request", VTL.ref "util.toJson($ctx.request)"),
            ("prev", VTL.ref "util.toJson($ctx.prev)")])]))
    (MappingTemplate.printed "Handle error or return result"
      (VTL.compoundExpression
        [VTL.iff (VTL.ref "ctx.error")
          (VTL.raw "$util.error($ctx.error.message, $ctx.error.type)"),
         VTL.raw "$util.toJson($ctx.result)"]))
    [sidecarLambdaDataSourceName]

/-- The pair returned by `createLambdaFunctionResources`. -/
structure FunctionResources where
  sidecarLambdaFunctionId : String
  sidecarLambdaDataSourceName : String

/-- `createLambdaFunctionResources(directive, ctx)` with the directive already
reduced to `(name, region)`: the idempotent Resource Graph Builder. -/
def createLambdaFunctionResources (name : String) (region : Option String)
    (ctx : TransformerContext) : FunctionResources × TransformerContext :=
  let iamRoleId := FunctionIAMRoleID name region
  let ctx :=
    if (ctx.getResource iamRoleId).isNone then
      (ctx.setResource iamRoleId
        (roleResource name region)).mapResourceToStack
        SIDECAR_DIRECTIVE_STACK iamRoleId
    else ctx
  let sidecarLambdaDataSourceName := FunctionDataSourceID name region
  let ctx :=
    if (ctx.getResource sidecarLambdaDataSourceName).isNone then
      (ctx.setResource sidecarLambdaDataSourceName
        (dataSourceResource name region iamRoleId
          sidecarLambdaDataSourceName)).mapResourceToStack
        SIDECAR_DIRECTIVE_STACK sidecarLambdaDataSourceName
    else ctx
  let sidecarLambdaFunctionId :=
    FunctionAppSyncFunctionConfigurationID name region
  let ctx :=
    if (ctx.getResource sidecarLambdaFunctionId).isNone then
      (ctx.setResource sidecarLambdaFunctionId
        (functionConfigResource sidecarLambdaFunctionId
          sidecarLambdaDataSourceName)).mapResourceToStack
        SIDECAR_DIRECTIVE_STACK sidecarLambdaFunctionId
    else ctx
  (⟨sidecarLambdaFunctionId, sidecarLambdaDataSourceName⟩, ctx)

/-- `fieldName[0].toUpperCase() + fieldName.substring(1)` (callers always pass
a non-empty field name). -/
def capitalizeFirst (s : String) : String :=
  match s.data with
  | [] => ""
  | c :: cs => String.mk (c.toUpper :: cs)

/-- The resolver identifier
`typeName + fieldNameFirstletterUppercase + "SidecarResolver"`. -/
def sidecarResolverId (typeName fieldName : String) : String :=
  typeName ++ capitalizeFirst fieldName ++ "SidecarResolver"

/-- The AppSync resolver descriptor built by the Resolver Attacher. -/
def resolverResource (sidecarLambdaFunctionId sidecarLambdaDataSourceName
    typeName fieldName : String) : Resource :=
  Resource.resolver
    (CfnValue.fnGetAtt RESOURCES_GraphQLAPILogicalID "ApiId")
    typeName fieldName "UNIT" sidecarLambdaDataSourceName
    (MappingTemplate.printed "Stash resolver specific context."
      (VTL.compoundExpression
        [VTL.qref ("$ctx.stash.put(\"typeName\", \"" ++ typeName ++ "\")"),
         VTL.qref ("$ctx.stash.put(\"fieldName\", \"" ++ fieldName ++ "\")"),
         VTL.obj []]))
    (MappingTemplate.plain "$util.toJson($ctx.result)")
    [sidecarLambdaFunctionId]

/-- `createSidecarResolver(ctx, functionId, dataSourceName, typeName,
fieldName)`: the Resolver Attacher.  Its invocation is recorded in
`attachLog`; the insertion is unconditional. -/
def createSidecarResolver (ctx : TransformerContext)
    (sidecarLambdaFunctionId sidecarLambdaDataSourceName
     typeName fieldName : String) : TransformerContext :=
  let ctx := { ctx with
    attachLog := ctx.attachLog ++
      [ResolverCall.mk typeName fieldName sidecarLambdaFunctionId
        sidecarLambdaDataSourceName] }
  let rid := sidecarResolverId typeName fieldName
  (ctx.setResource rid
    (resolverResource sidecarLambdaFunctionId sidecarLambdaDataSourceName
      typeName fieldName)).mapResourceToStack SIDECAR_DIRECTIVE_STACK rid

/-- `object(definition, directive, ctx)`: the entry point.  Returns the
outcome together with the context after the call (unchanged on error, since
the source raises before any mutation). -/
def object (definition : ObjectTypeDefinitionNode) (directive : DirectiveNode)
    (ctx : TransformerContext) :
    Except TransformerError Unit × TransformerContext :=
  match validateObject definition with
  | Except.error e => (Except.error e, ctx)
  | Except.ok _ =>
    let (fr, ctx) := createLambdaFunctionResources directive.name
      directive.region ctx
    let ctx := createSidecarResolver ctx fr.sidecarLambdaFunctionId
      fr.sidecarLambdaDataSourceName "Mutation"
      ("create" ++ definition.name)
    let ctx := createSidecarResolver ctx fr.sidecarLambdaFunctionId
      fr.sidecarLambdaDataSourceName "Mutation"
      ("update" ++ definition.name)
    let ctx := createSidecarResolver ctx fr.sidecarLambdaFunctionId
      fr.sidecarLambdaDataSourceName "Mutation"
      ("delete" ++ definition.name)
    let ctx := createSidecarResolver ctx fr.sidecarLambdaFunctionId
      fr.sidecarLambdaDataSourceName "Query"
      ("get" ++ definition.name)
    let ctx := createSidecarResolver ctx fr.sidecarLambdaFunctionId
      fr.sidecarLambdaDataSourceName "Query"
      (plurality ("list" ++ definition.name) true)
    (Except.ok (), ctx)

/-! ## String helper lemmas -/

/-- Strings of different lengths are different. -/
theorem String.ne_of_length_ne {a b : String} (h : a.length ≠ b.length) :
    a ≠ b := fun he => h (he ▸ rfl)

/-- Appending different suffixes of equal length yields different strings. -/
theorem String.append_suffix_ne (a b : String) {s t : String}
    (hlen : s.length = t.length) (hne : s ≠ t) : a ++ s ≠ b ++ t := by
  intro he
  apply hne
  have hd : a.data ++ s.data = b.data ++ t.data := by
    have := congrArg String.data he
    simpa [String.data_append] using this
  exact String.ext (List.append_inj' hd hlen).2

/-- Prepending different prefixes of equal length yields different strings. -/
theorem String.prefix_append_ne {s t : String} (a b : String)
    (hlen : s.length = t.length) (hne : s ≠ t) : s ++ a ≠ t ++ b := by
  intro he
  apply hne
  have hd : s.data ++ a.data = t.data ++ b.data := by
    have := congrArg String.data he
    simpa [String.data_append] using this
  exact String.ext (List.append_inj hd hlen).1

/-! ## Substring lemmas -/

/-- A pattern that is a prefix is in particular a substring. -/
theorem containsSub_of_isPrefixOf {pat l : List Char}
    (h : pat.isPrefixOf l = true) : containsSub pat l = true := by
  cases l with
  | nil =>
    have : pat = [] := by
      simpa using (List.isPrefixOf_iff_prefix.mp h)
    simp [containsSub, this]
  | cons c tl => simp [containsSub, h]

/-- If `pat` is not a substring, neither is any extension `c :: pat`; hence
removing the first occurrence of `c :: pat` changes nothing. -/
theorem removeFirstSub_of_not_containsSub {pat : List Char} (c : Char)
    {l : List Char} (h : containsSub pat l = false) :
    removeFirstSub (c :: pat) l = l := by
  induction l with
  | nil => rfl
  | cons c' tl ih =>
    have h' : pat.isPrefixOf (c' :: tl) = false ∧ containsSub pat tl = false := by
      simpa [containsSub] using h
    have hpre : (c :: pat).isPrefixOf (c' :: tl) = false := by
      by_contra hcontra
      have htrue : (c :: pat).isPrefixOf (c' :: tl) = true := by
        simpa using hcontra
      have hp : c = c' ∧ pat <+: tl := by
        simpa [List.cons_prefix_cons] using List.isPrefixOf_iff_prefix.mp htrue
      have : containsSub pat tl = true :=
        containsSub_of_isPrefixOf (List.isPrefixOf_iff_prefix.mpr hp.2)
      simp [this] at h'
    simp [removeFirstSub, hpre, ih h'.2]

/-- Substring containment is preserved by prepending. -/
theorem containsSub_append_right {pat l₂ : List Char} (l₁ : List Char)
    (h : containsSub pat l₂ = true) : containsSub pat (l₁ ++ l₂) = true := by
  induction l₁ with
  | nil => simpa using h
  | cons c tl ih => simp [containsSub, ih]

/-- A name with no environment placeholder is unchanged by
`removeEnvReference`. -/
theorem removeEnvReference_of_not_referencesEnv {name : String}
    (h : referencesEnv name = false) : removeEnvReference name = name := by
  unfold removeEnvReference
  have : removeFirstSub ('-' :: envToken.data) name.data = name.data :=
    removeFirstSub_of_not_containsSub '-' (by simpa [referencesEnv] using h)
  have hd : dashEnvToken.data = '-' :: envToken.data := by decide
  rw [hd, this]

/-! ## Registry lemmas -/

theorem not_any_of_eq_false {α : Type} {l : List (String × α)} {k : String}
    (h : l.any (fun p => p.1 == k) = false) :
    ¬(l.any (fun p => p.1 == k) = true) := by
  intro hc
  rw [hc] at h
  cases h

theorem find?_overwrite {α : Type} (k : String) (v : α) :
    ∀ (l : List (String × α)), l.any (fun p => p.1 == k) = true →
      (l.map (fun p => if p.1 == k then (k, v) else p)).find?
        (fun p => p.1 == k) = some (k, v) := by
  intro l
  induction l with
  | nil => intro h; simp at h
  | cons hd tl ih =>
    intro h
    by_cases hk : hd.1 = k
    · subst hk
      simp [List.find?]
    · have hne : (hd.1 == k) = false := beq_eq_false_iff_ne.mpr hk
      have h' : tl.any (fun p => p.1 == k) = true := by
        simpa [List.any_cons, hne] using h
      simpa [List.find?, hne] using ih h'

theorem find?_append_absent {α : Type} (k : String) (v : α) :
    ∀ (l : List (String × α)), l.any (fun p => p.1 == k) = false →
      (l ++ [(k, v)]).find? (fun p => p.1 == k) = some (k, v) := by
  intro l
  induction l with
  | nil => intro _; simp [List.find?]
  | cons hd tl ih =>
    intro h
    have hne : (hd.1 == k) = false := by
      by_contra hcontra
      have : (hd.1 == k) = true := by simpa using hcontra
      simp [List.any_cons, this] at h
    have h' : tl.any (fun p => p.1 == k) = false := by
      simpa [List.any_cons, hne] using h
    simpa [List.find?, hne] using ih h'

theorem find?_setEntry_self {α : Type} (l : List (String × α)) (k : String)
    (v : α) :
    (setEntry l k v).find? (fun p => p.1 == k) = some (k, v) := by
  unfold setEntry
  by_cases h : l.any (fun p => p.1 == k) = true
  · rw [if_pos h]; exact find?_overwrite k v l h
  · have h' : l.any (fun p => p.1 == k) = false := Bool.eq_false_iff.mpr h
    rw [if_neg h]; exact find?_append_absent k v l h'

theorem find?_map_overwrite_ne {α : Type} {k k' : String} (v : α)
    (h : k' ≠ k) :
    ∀ (l : List (String × α)),
      (l.map (fun p => if p.1 == k then (k, v) else p)).find?
        (fun p => p.1 == k') = l.find? (fun p => p.1 == k') := by
  intro l
  induction l with
  | nil => simp
  | cons hd tl ih =>
    by_cases hk : hd.1 = k
    · have hkk' : (k == k') = false := beq_eq_false_iff_ne.mpr (Ne.symm h)
      have hhd : (hd.1 == k') = false := by rw [hk]; exact hkk'
      have hbeq : (hd.1 == k) = true := beq_iff_eq.mpr hk
      simp only [List.map_cons, List.find?, hbeq, if_true, hkk', hhd]
      exact ih
    · have hne : (hd.1 == k) = false := beq_eq_false_iff_ne.mpr hk
      simp only [List.map_cons, List.find?, hne, Bool.false_eq_true,
        if_false]
      cases hcase : (hd.1 == k') with
      | true => rfl
      | false => exact ih

theorem find?_append_singleton_ne {α : Type} {k k' : String} (v : α)
    (h : k' ≠ k) :
    ∀ (l : List (String × α)),
      (l ++ [(k, v)]).find? (fun p => p.1 == k') =
        l.find? (fun p => p.1 == k') := by
  intro l
  induction l with
  | nil =>
    simp [List.find?, beq_eq_false_iff_ne.mpr (Ne.symm h)]
  | cons hd tl ih =>
    simp only [List.cons_append, List.find?]
    cases hcase : (hd.1 == k') with
    | true => rfl
    | false => exact ih

theorem find?_setEntry_ne {α : Type} (l : List (String × α)) {k k' : String}
    (v : α) (h : k' ≠ k) :
    (setEntry l k v).find? (fun p => p.1 == k') =
      l.find? (fun p => p.1 == k') := by
  unfold setEntry
  by_cases hany : l.any (fun p => p.1 == k) = true
  · rw [if_pos hany]; exact find?_map_overwrite_ne v h l
  · rw [if_neg hany]; exact find?_append_singleton_ne v h l

theorem mapFst_setEntry_of_mem {α : Type} (l : List (String × α))
    (k : String) (v : α) (h : l.any (fun p => p.1 == k) = true) :
    (setEntry l k v).map Prod.fst = l.map Prod.fst := by
  unfold setEntry
  rw [if_pos h, List.map_map]
  apply List.map_congr_left
  intro p _
  by_cases hk : p.1 = k
  · have hbeq : (p.1 == k) = true := beq_iff_eq.mpr hk
    simp only [Function.comp_apply, hbeq, if_true]
    exact hk.symm
  · have hne : (p.1 == k) = false := beq_eq_false_iff_ne.mpr hk
    simp only [Function.comp_apply, hne, Bool.false_eq_true, if_false]

theorem mapFst_setEntry_of_not_mem {α : Type} (l : List (String × α))
    (k : String) (v : α) (h : l.any (fun p => p.1 == k) = false) :
    (setEntry l k v).map Prod.fst = l.map Prod.fst ++ [k] := by
  unfold setEntry
  rw [if_neg (not_any_of_eq_false h)]
  simp

theorem any_eq_find?_isSome {α : Type} (l : List (String × α)) (k : String) :
    l.any (fun p => p.1 == k) = (l.find? (fun p => p.1 == k)).isSome := by
  induction l with
  | nil => simp
  | cons hd tl ih =>
    cases hcase : (hd.1 == k) with
    | true => simp [List.find?, List.any_cons, hcase]
    | false => simp [List.find?, List.any_cons, hcase, ih]

/-- A hit of the key predicate puts the key among the keys. -/
theorem mem_mapFst_of_find?_isSome {α : Type} {l : List (String × α)}
    {k : String} (h : (l.find? (fun p => p.1 == k)).isSome) :
    k ∈ l.map Prod.fst := by
  obtain ⟨p, hp⟩ := Option.isSome_iff_exists.mp h
  have hmem := List.mem_of_find?_eq_some hp
  have hbeq := List.find?_some hp
  have hk : p.1 = k := by simpa using hbeq
  exact hk ▸ List.mem_map_of_mem Prod.fst hmem

/-! ## Context-level lemmas -/

/-- Setting a resource makes it retrievable under its key. -/
theorem getResource_setResource_self (ctx : TransformerContext) (k : String)
    (r : Resource) : (ctx.setResource k r).getResource k = some r := by
  unfold TransformerContext.getResource TransformerContext.setResource
  simp [find?_setEntry_self]

/-- Setting a resource does not disturb other keys. -/
theorem getResource_setResource_ne (ctx : TransformerContext) {k k' : String}
    (r : Resource) (h : k' ≠ k) :
    (ctx.setResource k r).getResource k' = ctx.getResource k' := by
  unfold TransformerContext.getResource TransformerContext.setResource
  simp [find?_setEntry_ne _ _ h]

/-- Stack mapping does not touch the resource registry. -/
theorem getResource_mapResourceToStack (ctx : TransformerContext)
    (s k k' : String) :
    (ctx.mapResourceToStack s k).getResource k' = ctx.getResource k' := rfl

/-- The `any`-over-keys test agrees with `getResource` producing a hit. -/
theorem any_resources_eq_isSome_getResource (ctx : TransformerContext)
    (k : String) :
    ctx.resources.any (fun p => p.1 == k) = (ctx.getResource k).isSome := by
  rw [any_eq_find?_isSome]
  unfold TransformerContext.getResource
  cases ctx.resources.find? (fun p => p.1 == k) <;> rfl

/-- An `isSome` lookup refutes the `isNone` guard. -/
theorem not_isNone_of_isSome {α : Type} {o : Option α}
    (h : o.isSome = true) : ¬(o.isNone = true) := by
  cases o with
  | none => cases h
  | some _ => intro hc; cases hc

/-- After a guarded create at `k`, the key `k` is present. -/
theorem getResource_guardedCreate (ctx : TransformerContext) (k : String)
    (r : Resource) (s : String) :
    ((if (ctx.getResource k).isNone then
        (ctx.setResource k r).mapResourceToStack s k
      else ctx).getResource k).isSome = true := by
  split
  · rw [getResource_mapResourceToStack, getResource_setResource_self]; rfl
  · rename_i h
    cases hc : ctx.getResource k with
    | none => rw [hc] at h; simp at h
    | some r' => rfl

/-- A guarded create at `k` does not disturb other keys. -/
theorem getResource_guardedCreate_ne (ctx : TransformerContext) (k : String)
    (r : Resource) (s : String) {k' : String} (h : k' ≠ k) :
    (if (ctx.getResource k).isNone then
        (ctx.setResource k r).mapResourceToStack s k
      else ctx).getResource k' = ctx.getResource k' := by
  split
  · rw [getResource_mapResourceToStack, getResource_setResource_ne _ _ h]
  · rfl

/-- After a guarded create at `k` on a duplicate-free registry, the registry
holds exactly one entry under `k`. -/
theorem count_keys_guardedCreate_self (ctx : TransformerContext) (k : String)
    (r : Resource) (s : String)
    (h : (ctx.resources.map Prod.fst).Nodup) :
    ((if (ctx.getResource k).isNone then
        (ctx.setResource k r).mapResourceToStack s k
      else ctx).resources.map Prod.fst).count k = 1 := by
  split
  · rename_i hnone
    have hzero : (ctx.getResource k).isSome = false := by
      cases hc : ctx.getResource k with
      | none => rfl
      | some r' => rw [hc] at hnone; cases hnone
    have hany : ctx.resources.any (fun p => p.1 == k) = false := by
      rw [any_resources_eq_isSome_getResource, hzero]
    show ((setEntry ctx.resources k r).map Prod.fst).count k = 1
    rw [mapFst_setEntry_of_not_mem _ _ _ hany]
    have hnm : k ∉ ctx.resources.map Prod.fst := by
      intro hmem
      have : ctx.resources.any (fun p => p.1 == k) = true := by
        rw [List.any_eq_true]
        obtain ⟨p, hp, hpk⟩ := List.mem_map.mp hmem
        exact ⟨p, hp, by simpa using hpk⟩
      rw [this] at hany; cases hany
    simp [List.count_append, List.count_eq_zero.mpr hnm]
  · rename_i hguard
    have hsome : (ctx.getResource k).isSome = true := by
      cases hc : ctx.getResource k with
      | none => rw [hc] at hguard; simp at hguard
      | some r' => rfl
    have hfind : (ctx.resources.find? (fun p => p.1 == k)).isSome = true := by
      unfold TransformerContext.getResource at hsome
      cases hf : ctx.resources.find? (fun p => p.1 == k) with
      | none => rw [hf] at hsome; cases hsome
      | some p => rfl
    exact List.count_eq_one_of_mem h (mem_mapFst_of_find?_isSome hfind)

/-- A guarded create at `k` leaves counts of other keys unchanged. -/
theorem count_keys_guardedCreate_ne (ctx : TransformerContext) (k : String)
    (r : Resource) (s : String) {k' : String} (h : k' ≠ k) :
    ((if (ctx.getResource k).isNone then
        (ctx.setResource k r).mapResourceToStack s k
      else ctx).resources.map Prod.fst).count k' =
      (ctx.resources.map Prod.fst).count k' := by
  split
  · show ((setEntry ctx.resources k r).map Prod.fst).count k' = _
    cases hany : ctx.resources.any (fun p => p.1 == k) with
    | true => rw [mapFst_setEntry_of_mem _ _ _ hany]
    | false =>
      rw [mapFst_setEntry_of_not_mem _ _ _ hany]
      simp [List.count_append, List.count_singleton, h]
  · rfl

/-- A guarded create preserves duplicate-freedom of the keys. -/
theorem nodup_keys_guardedCreate (ctx : TransformerContext) (k : String)
    (r : Resource) (s : String)
    (h : (ctx.resources.map Prod.fst).Nodup) :
    ((if (ctx.getResource k).isNone then
        (ctx.setResource k r).mapResourceToStack s k
      else ctx).resources.map Prod.fst).Nodup := by
  split
  · rename_i hnone
    have hzero : (ctx.getResource k).isSome = false := by
      cases hc : ctx.getResource k with
      | none => rfl
      | some r' => rw [hc] at hnone; cases hnone
    have hany : ctx.resources.any (fun p => p.1 == k) = false := by
      rw [any_resources_eq_isSome_getResource, hzero]
    show ((setEntry ctx.resources k r).map Prod.fst).Nodup
    rw [mapFst_setEntry_of_not_mem _ _ _ hany]
    have hnm : k ∉ ctx.resources.map Prod.fst := by
      intro hmem
      have : ctx.resources.any (fun p => p.1 == k) = true := by
        rw [List.any_eq_true]
        obtain ⟨p, hp, hpk⟩ := List.mem_map.mp hmem
        exact ⟨p, hp, by simpa using hpk⟩
      rw [this] at hany; cases hany
    simp [List.nodup_append, h, hnm]
  · exact h

/-! ## Key distinctness lemmas -/

/-- The data-source key never equals the role key. -/
theorem FunctionDataSourceID_ne_FunctionIAMRoleID (name : String)
    (region : Option String) :
    FunctionDataSourceID name region ≠ FunctionIAMRoleID name region := by
  apply String.ne_of_length_ne
  unfold FunctionIAMRoleID
  rw [String.length_append]
  have : ("Role" : String).length = 4 := rfl
  omega

/-- The role key never equals the function-configuration key. -/
theorem FunctionIAMRoleID_ne_FunctionAppSyncFunctionConfigurationID
    (name : String) (region : Option String) :
    FunctionIAMRoleID name region ≠
      FunctionAppSyncFunctionConfigurationID name region := by
  apply String.ne_of_length_ne
  unfold FunctionIAMRoleID FunctionAppSyncFunctionConfigurationID
  rw [String.length_append, String.length_append]
  have h1 : ("Role" : String).length = 4 := rfl
  have h2 : ("Invoke" : String).length = 6 := rfl
  omega

/-- The data-source key never equals the function-configuration key. -/
theorem FunctionDataSourceID_ne_FunctionAppSyncFunctionConfigurationID
    (name : String) (region : Option String) :
    FunctionDataSourceID name region ≠
      FunctionAppSyncFunctionConfigurationID name region := by
  apply String.ne_of_length_ne
  unfold FunctionAppSyncFunctionConfigurationID
  rw [String.length_append]
  have : ("Invoke" : String).length = 6 := rfl
  omega

/-- A resolver identifier (suffix `SidecarResolver`) never equals a role key
(suffix `LambdaDataSourceRole`). -/
theorem sidecarSuffix_ne_FunctionIAMRoleID (p name : String)
    (region : Option String) :
    p ++ "SidecarResolver" ≠ FunctionIAMRoleID name region := by
  have hshape : FunctionIAMRoleID name region =
      (name ++ region.getD "" ++ "Lambd") ++ "aDataSourceRole" := by
    unfold FunctionIAMRoleID FunctionDataSourceID
    rw [String.append_assoc (name ++ region.getD "") "LambdaDataSource" "Role",
      String.append_assoc (name ++ region.getD "") "Lambd" "aDataSourceRole"]
    rfl
  rw [hshape]
  exact String.append_suffix_ne p _ rfl (by decide)

/-- A resolver identifier never equals a data-source key
(suffix `LambdaDataSource`). -/
theorem sidecarSuffix_ne_FunctionDataSourceID (p name : String)
    (region : Option String) :
    p ++ "SidecarResolver" ≠ FunctionDataSourceID name region := by
  have hshape : FunctionDataSourceID name region =
      (name ++ region.getD "" ++ "L") ++ "ambdaDataSource" := by
    unfold FunctionDataSourceID
    rw [String.append_assoc (name ++ region.getD "") "L" "ambdaDataSource"]
    rfl
  rw [hshape]
  exact String.append_suffix_ne p _ rfl (by decide)

/-- A resolver identifier never equals a function-configuration key
(also suffix `LambdaDataSource`). -/
theorem sidecarSuffix_ne_FunctionAppSyncFunctionConfigurationID
    (p name : String) (region : Option String) :
    p ++ "SidecarResolver" ≠
      FunctionAppSyncFunctionConfigurationID name region := by
  have hshape : FunctionAppSyncFunctionConfigurationID name region =
      ("Invoke" ++ (name ++ region.getD "") ++ "L") ++ "ambdaDataSource" := by
    unfold FunctionAppSyncFunctionConfigurationID FunctionDataSourceID
    rw [String.append_assoc ("Invoke" ++ (name ++ region.getD "")) "L"
      "ambdaDataSource"]
    rw [← String.append_assoc "Invoke" (name ++ region.getD "")
      "LambdaDataSource"]
    rfl
  rw [hshape]
  exact String.append_suffix_ne p _ rfl (by decide)

/-! ## Resource Graph Builder lemmas -/

/-- The key pair returned by the builder is computed purely from
`(name, region)`. -/
theorem createLambdaFunctionResources_fst (name : String)
    (region : Option String) (ctx : TransformerContext) :
    (createLambdaFunctionResources name region ctx).1 =
      ⟨FunctionAppSyncFunctionConfigurationID name region,
       FunctionDataSourceID name region⟩ := rfl

/-- After any call to the builder, all three shared keys are present. -/
theorem createLambdaFunctionResources_keys_present (name : String)
    (region : Option String) (ctx : TransformerContext) :
    (((createLambdaFunctionResources name region ctx).2.getResource
        (FunctionIAMRoleID name region)).isSome = true) ∧
    (((createLambdaFunctionResources name region ctx).2.getResource
        (FunctionDataSourceID name region)).isSome = true) ∧
    (((createLambdaFunctionResources name region ctx).2.getResource
        (FunctionAppSyncFunctionConfigurationID name region)).isSome
      = true) := by
  simp only [createLambdaFunctionResources]
  refine ⟨?_, ?_, ?_⟩
  · rw [getResource_guardedCreate_ne _ _ _ _
      (FunctionIAMRoleID_ne_FunctionAppSyncFunctionConfigurationID name
        region)]
    rw [getResource_guardedCreate_ne _ _ _ _
      (Ne.symm (FunctionDataSourceID_ne_FunctionIAMRoleID name region))]
    exact getResource_guardedCreate ctx _ _ _
  · rw [getResource_guardedCreate_ne _ _ _ _
      (FunctionDataSourceID_ne_FunctionAppSyncFunctionConfigurationID name
        region)]
    exact getResource_guardedCreate _ _ _ _
  · exact getResource_guardedCreate _ _ _ _

/-- When all three shared keys are already present, the builder is the
identity on the context: it performs no registry writes and returns the
existing keys. -/
theorem createLambdaFunctionResources_of_present (name : String)
    (region : Option String) (ctx : TransformerContext)
    (h1 : (ctx.getResource (FunctionIAMRoleID name region)).isSome = true)
    (h2 : (ctx.getResource (FunctionDataSourceID name region)).isSome = true)
    (h3 : (ctx.getResource
      (FunctionAppSyncFunctionConfigurationID name region)).isSome = true) :
    createLambdaFunctionResources name region ctx =
      (⟨FunctionAppSyncFunctionConfigurationID name region,
        FunctionDataSourceID name region⟩, ctx) := by
  simp only [createLambdaFunctionResources]
  rw [if_neg (not_isNone_of_isSome h1), if_neg (not_isNone_of_isSome h2),
    if_neg (not_isNone_of_isSome h3)]

/-- After the builder runs on a duplicate-free registry, the registry holds
exactly one entry under each of the three shared keys. -/
theorem createLambdaFunctionResources_counts (name : String)
    (region : Option String) (ctx : TransformerContext)
    (h : (ctx.resources.map Prod.fst).Nodup) :
    (((createLambdaFunctionResources name region ctx).2.resources.map
        Prod.fst).count (FunctionIAMRoleID name region) = 1) ∧
    (((createLambdaFunctionResources name region ctx).2.resources.map
        Prod.fst).count (FunctionDataSourceID name region) = 1) ∧
    (((createLambdaFunctionResources name region ctx).2.resources.map
        Prod.fst).count (FunctionAppSyncFunctionConfigurationID name region)
      = 1) := by
  simp only [createLambdaFunctionResources]
  refine ⟨?_, ?_, ?_⟩
  · rw [count_keys_guardedCreate_ne _ _ _ _
      (FunctionIAMRoleID_ne_FunctionAppSyncFunctionConfigurationID name
        region)]
    rw [count_keys_guardedCreate_ne _ _ _ _
      (Ne.symm (FunctionDataSourceID_ne_FunctionIAMRoleID name region))]
    exact count_keys_guardedCreate_self ctx _ _ _ h
  · rw [count_keys_guardedCreate_ne _ _ _ _
      (FunctionDataSourceID_ne_FunctionAppSyncFunctionConfigurationID name
        region)]
    exact count_keys_guardedCreate_self _ _ _ _
      (nodup_keys_guardedCreate ctx _ _ _ h)
  · exact count_keys_guardedCreate_self _ _ _ _
      (nodup_keys_guardedCreate _ _ _ _
        (nodup_keys_guardedCreate ctx _ _ _ h))

/-! ## Claim C1 -/

/-- C1: For every `(name, region)` pair and every registry context with
duplicate-free keys, calling the Resource Graph Builder
(`createLambdaFunctionResources`) a second time with the same
`(name, region)` after a first call performs zero registry writes — the
second call returns the first context unchanged (in particular its write log
gains no `setResource` and no `mapResourceToStack` entry) together with the
same `(functionConfigKey, dataSourceKey)` pair as the first call — and the
registry after the first call holds exactly one role, one data-source and
one function-configuration entry for that pair. -/
theorem C1_createLambdaFunctionResources_idempotent (name : String)
    (region : Option String) (ctx : TransformerContext)
    (h : (ctx.resources.map Prod.fst).Nodup) :
    (createLambdaFunctionResources name region
        ((createLambdaFunctionResources name region ctx).2) =
      ((createLambdaFunctionResources name region ctx).1,
       (createLambdaFunctionResources name region ctx).2)) ∧
    ((createLambdaFunctionResources name region
        ((createLambdaFunctionResources name region ctx).2)).2.opLog =
      (createLambdaFunctionResources name region ctx).2.opLog) ∧
    (((createLambdaFunctionResources name region ctx).2.resources.map
        Prod.fst).count (FunctionIAMRoleID name region) = 1) ∧
    (((createLambdaFunctionResources name region ctx).2.resources.map
        Prod.fst).count (FunctionDataSourceID name region) = 1) ∧
    (((createLambdaFunctionResources name region ctx).2.resources.map
        Prod.fst).count (FunctionAppSyncFunctionConfigurationID name region)
      = 1) := by
  obtain ⟨p1, p2, p3⟩ :=
    createLambdaFunctionResources_keys_present name region ctx
  have hsecond := createLambdaFunctionResources_of_present name region
    ((createLambdaFunctionResources name region ctx).2) p1 p2 p3
  obtain ⟨c1, c2, c3⟩ :=
    createLambdaFunctionResources_counts name region ctx h
  refine ⟨?_, ?_, c1, c2, c3⟩
  · rw [hsecond, createLambdaFunctionResources_fst]
  · rw [hsecond]

/-- Witness for C1 at `name = "foo"`, `region = none`, the empty context. -/
theorem C1_witness :
    ((TransformerContext.empty.resources.map Prod.fst).Nodup) ∧
    ((createLambdaFunctionResources "foo" none
        ((createLambdaFunctionResources "foo" none
          TransformerContext.empty).2) =
      ((createLambdaFunctionResources "foo" none
          TransformerContext.empty).1,
       (createLambdaFunctionResources "foo" none
          TransformerContext.empty).2)) ∧
    ((createLambdaFunctionResources "foo" none
        ((createLambdaFunctionResources "foo" none
          TransformerContext.empty).2)).2.opLog =
      (createLambdaFunctionResources "foo" none
        TransformerContext.empty).2.opLog) ∧
    (((createLambdaFunctionResources "foo" none
        TransformerContext.empty).2.resources.map
        Prod.fst).count (FunctionIAMRoleID "foo" none) = 1) ∧
    (((createLambdaFunctionResources "foo" none
        TransformerContext.empty).2.resources.map
        Prod.fst).count (FunctionDataSourceID "foo" none) = 1) ∧
    (((createLambdaFunctionResources "foo" none
        TransformerContext.empty).2.resources.map
        Prod.fst).count
        (FunctionAppSyncFunctionConfigurationID "foo" none) = 1)) :=
  ⟨by simp [TransformerContext.empty],
   C1_createLambdaFunctionResources_idempotent "foo" none
     TransformerContext.empty (by simp [TransformerContext.empty])⟩

/-- Removing a pattern that does not occur changes nothing. -/
theorem removeFirstSub_of_not_containsSub_self {pat l : List Char}
    (h : containsSub pat l = false) : removeFirstSub pat l = l := by
  induction l with
  | nil => rfl
  | cons c tl ih =>
    have h' : pat.isPrefixOf (c :: tl) = false ∧ containsSub pat tl = false := by
      simpa [containsSub] using h
    simp [removeFirstSub, h'.1, ih h'.2]

/-! ## Claim C2 -/

/-- C2: For every annotated type definition whose directives do not include a
`model` directive, the entry point `object` returns an
`InvalidDirectiveError` and the context — hence the registry size,
contents and write log — is unchanged: no `setResource` or
`mapResourceToStack` occurs, because validation precedes every write. -/
theorem C2_validation_gate (definition : ObjectTypeDefinitionNode)
    (dir : DirectiveNode) (ctx : TransformerContext)
    (h : ∀ ds, definition.directives = some ds → "model" ∉ ds) :
    ((object definition dir ctx).2 = ctx) ∧
    (∃ msg, (object definition dir ctx).1 =
      Except.error (TransformerError.invalidDirective msg)) := by
  have hval : ∃ msg, validateObject definition =
      Except.error (TransformerError.invalidDirective msg) := by
    unfold validateObject
    cases hds : definition.directives with
    | none => exact ⟨_, rfl⟩
    | some ds =>
      have hfind : ds.find? (fun dir => dir == "model") = none := by
        rw [List.find?_eq_none]
        intro x hx
        have hne : x ≠ "model" := fun he => (h ds hds) (he ▸ hx)
        simpa using hne
      refine
        ⟨"Types annotated with @sidecar must also be annotated with @model.",
         ?_⟩
      show (match ds.find? (fun dir => dir == "model") with
        | none =>
          Except.error (TransformerError.invalidDirective
            "Types annotated with @sidecar must also be annotated with @model.")
        | some _ => Except.ok ()) =
        Except.error (TransformerError.invalidDirective
          "Types annotated with @sidecar must also be annotated with @model.")
      rw [hfind]
  obtain ⟨msg, hmsg⟩ := hval
  unfold object
  rw [hmsg]
  exact ⟨rfl, msg, rfl⟩

/-- Witness for C2: a definition carrying only a `sidecar` directive is
rejected and the context (here: one with a marker log entry) is returned
untouched. -/
theorem C2_witness :
    (∀ ds, (ObjectTypeDefinitionNode.mk "Widget"
        (some ["sidecar"])).directives = some ds → "model" ∉ ds) ∧
    ((object (ObjectTypeDefinitionNode.mk "Widget" (some ["sidecar"]))
        (DirectiveNode.mk "myFn" none) TransformerContext.empty).2 =
      TransformerContext.empty) ∧
    (∃ msg, (object (ObjectTypeDefinitionNode.mk "Widget" (some ["sidecar"]))
        (DirectiveNode.mk "myFn" none) TransformerContext.empty).1 =
      Except.error (TransformerError.invalidDirective msg)) :=
  have h : ∀ ds, (ObjectTypeDefinitionNode.mk "Widget"
      (some ["sidecar"])).directives = some ds → "model" ∉ ds := by
    intro ds hds
    cases hds
    simp
  ⟨h, C2_validation_gate _ _ _ h⟩

/-! ## Claim C5 -/

/-- C5: For `targetName = "myFn-\x24\x7benv\x7d"` and any region, the
Conditional Address Builder returns a conditional whose
environment-parameter-defined branch substitutes a reference to the
environment parameter into the address built from the original name, and
whose undefined branch is the address built from `"myFn"` (placeholder
stripped) with an empty substitution map. -/
theorem C5_env_placeholder_branches (region : Option String) :
    lambdaArnResource "myFn-$\x7benv\x7d" region =
      CfnValue.fnIf CONDITIONS_HasEnvironmentParameter
        (CfnValue.fnSub (lambdaArnKey "myFn-$\x7benv\x7d" region)
          [("env", CfnValue.fnRef PARAMETERS_Env)])
        (CfnValue.fnSub (lambdaArnKey "myFn" region) []) := by
  have h1 : referencesEnv "myFn-$\x7benv\x7d" = true := by decide
  have h2 : removeEnvReference "myFn-$\x7benv\x7d" = "myFn" := by decide
  unfold lambdaArnResource
  rw [h2]
  simp [h1]

/-! ## Claim C6 -/

/-- C6: For every target name not containing the environment placeholder,
both branches of the conditional address use the name verbatim with an empty
substitution map; and for every target name whatsoever the address template
embeds the supplied region literal and account pseudo-parameter when a
region is given, and the region pseudo-parameter when it is not. -/
theorem C6_verbatim_branches_and_region_qualification (name : String)
    (region : Option String) (h : referencesEnv name = false) :
    (lambdaArnResource name region =
      CfnValue.fnIf CONDITIONS_HasEnvironmentParameter
        (CfnValue.fnSub (lambdaArnKey name region) [])
        (CfnValue.fnSub (lambdaArnKey name region) [])) ∧
    (∀ n r, lambdaArnKey n (some r) =
      "arn:aws:lambda:" ++ r ++ ":$\x7bAWS::AccountId\x7d:function:"
        ++ n) ∧
    (∀ n, lambdaArnKey n none =
      "arn:aws:lambda:$\x7bAWS::Region\x7d:$\x7bAWS::AccountId\x7d:function:"
        ++ n) := by
  refine ⟨?_, fun n r => rfl, fun n => rfl⟩
  unfold lambdaArnResource
  rw [removeEnvReference_of_not_referencesEnv h]
  simp [h]

/-- Witness for C6 at `name = "myFn"`, `region = some "us-east-1"`. -/
theorem C6_witness :
    (referencesEnv "myFn" = false) ∧
    ((lambdaArnResource "myFn" (some "us-east-1") =
      CfnValue.fnIf CONDITIONS_HasEnvironmentParameter
        (CfnValue.fnSub (lambdaArnKey "myFn" (some "us-east-1")) [])
        (CfnValue.fnSub (lambdaArnKey "myFn" (some "us-east-1")) [])) ∧
    (∀ n r, lambdaArnKey n (some r) =
      "arn:aws:lambda:" ++ r ++ ":$\x7bAWS::AccountId\x7d:function:"
        ++ n) ∧
    (∀ n, lambdaArnKey n none =
      "arn:aws:lambda:$\x7bAWS::Region\x7d:$\x7bAWS::AccountId\x7d:function:"
        ++ n)) :=
  ⟨by decide,
   C6_verbatim_branches_and_region_qualification "myFn" (some "us-east-1")
     (by decide)⟩

/-! ## Claim C8 -/

/-- C8: The key-derivation functions are pure and deterministic — identical
`(name, region)` inputs yield identical keys for each purpose; the key for
`("foo", "us-east-1")` differs from the key for `("foo", undefined)`; and
for every `(name, region)` the three purposes yield pairwise distinct
keys. -/
theorem C8_key_determinism_and_distinctness :
    (∀ name region,
      FunctionIAMRoleID name region = FunctionIAMRoleID name region ∧
      FunctionDataSourceID name region = FunctionDataSourceID name region ∧
      FunctionAppSyncFunctionConfigurationID name region =
        FunctionAppSyncFunctionConfigurationID name region) ∧
    (FunctionIAMRoleID "foo" (some "us-east-1") ≠
      FunctionIAMRoleID "foo" none) ∧
    (∀ name region,
      FunctionIAMRoleID name region ≠ FunctionDataSourceID name region ∧
      FunctionIAMRoleID name region ≠
        FunctionAppSyncFunctionConfigurationID name region ∧
      FunctionDataSourceID name region ≠
        FunctionAppSyncFunctionConfigurationID name region) :=
  ⟨fun _ _ => ⟨rfl, rfl, rfl⟩,
   by decide,
   fun name region =>
     ⟨Ne.symm (FunctionDataSourceID_ne_FunctionIAMRoleID name region),
      FunctionIAMRoleID_ne_FunctionAppSyncFunctionConfigurationID name region,
      FunctionDataSourceID_ne_FunctionAppSyncFunctionConfigurationID name
        region⟩⟩

/-! ## Claim C9 -/

/-- C9: The Resolver Attacher always inserts under the resolver identifier
(type name, capitalized field name, fixed `SidecarResolver` suffix) without
any pre-existence check: for every context — present or not — exactly one
`setResource` write occurs, and the descriptor is stored under the
identifier. -/
theorem C9_createSidecarResolver_unconditional_insert
    (ctx : TransformerContext)
    (functionId dataSourceName typeName fieldName : String) :
    ((createSidecarResolver ctx functionId dataSourceName typeName
        fieldName).opLog =
      ctx.opLog ++
        [RegistryOp.setResource (sidecarResolverId typeName fieldName),
         RegistryOp.mapResourceToStack SIDECAR_DIRECTIVE_STACK
           (sidecarResolverId typeName fieldName)]) ∧
    ((createSidecarResolver ctx functionId dataSourceName typeName
        fieldName).getResource (sidecarResolverId typeName fieldName) =
      some (resolverResource functionId dataSourceName typeName
        fieldName)) ∧
    (sidecarResolverId typeName fieldName =
      typeName ++ capitalizeFirst fieldName ++ "SidecarResolver") := by
  refine ⟨?_, ?_, rfl⟩
  · simp [createSidecarResolver, TransformerContext.setResource,
      TransformerContext.mapResourceToStack, List.append_assoc]
  · unfold createSidecarResolver
    rw [getResource_mapResourceToStack, getResource_setResource_self]

/-! ## Claim C10 -/

/-- C10: Placeholder stripping is narrower than placeholder detection: for
any target name containing the placeholder but not its hyphen-prefixed form,
the undefined branch of the conditional address keeps the original name —
its template still contains the literal placeholder — while carrying an
empty substitution map (and the defined branch carries the substitution). -/
theorem C10_stripping_narrower_than_detection (name : String)
    (region : Option String) (h1 : referencesEnv name = true)
    (h2 : containsSub dashEnvToken.data name.data = false) :
    (lambdaArnResource name region =
      CfnValue.fnIf CONDITIONS_HasEnvironmentParameter
        (CfnValue.fnSub (lambdaArnKey name region)
          [("env", CfnValue.fnRef PARAMETERS_Env)])
        (CfnValue.fnSub (lambdaArnKey name region) [])) ∧
    (containsSub envToken.data (lambdaArnKey name region).data = true) := by
  have hrm : removeEnvReference name = name := by
    unfold removeEnvReference
    rw [removeFirstSub_of_not_containsSub_self h2]
  constructor
  · unfold lambdaArnResource
    rw [hrm]
    simp [h1]
  · cases region with
    | some r =>
      show containsSub envToken.data
        (("arn:aws:lambda:" ++ r ++ ":$\x7bAWS::AccountId\x7d:function:"
          ++ name).data) = true
      rw [String.data_append]
      exact containsSub_append_right _ h1
    | none =>
      show containsSub envToken.data
        (("arn:aws:lambda:$\x7bAWS::Region\x7d:$\x7bAWS::AccountId\x7d:function:"
          ++ name).data) = true
      rw [String.data_append]
      exact containsSub_append_right _ h1

/-- Witness for C10 at `name = "\x24\x7benv\x7d-myFn"` (placeholder not
hyphen-prefixed), `region = none`. -/
theorem C10_witness :
    (referencesEnv "$\x7benv\x7d-myFn" = true) ∧
    (containsSub dashEnvToken.data ("$\x7benv\x7d-myFn" : String).data
      = false) ∧
    ((lambdaArnResource "$\x7benv\x7d-myFn" none =
      CfnValue.fnIf CONDITIONS_HasEnvironmentParameter
        (CfnValue.fnSub (lambdaArnKey "$\x7benv\x7d-myFn" none)
          [("env", CfnValue.fnRef PARAMETERS_Env)])
        (CfnValue.fnSub (lambdaArnKey "$\x7benv\x7d-myFn" none) [])) ∧
    (containsSub envToken.data (lambdaArnKey "$\x7benv\x7d-myFn" none).data
      = true)) :=
  ⟨by decide, by decide,
   C10_stripping_narrower_than_detection "$\x7benv\x7d-myFn" none
     (by decide) (by decide)⟩

/-! ## Log preservation lemmas -/

/-- A guarded create never touches the Resolver Attacher call log. -/
theorem attachLog_guardedCreate (ctx : TransformerContext) (k : String)
    (r : Resource) (s : String) :
    (if (ctx.getResource k).isNone then
        (ctx.setResource k r).mapResourceToStack s k
      else ctx).attachLog = ctx.attachLog := by
  split <;> rfl

/-- The builder never touches the Resolver Attacher call log. -/
theorem attachLog_createLambdaFunctionResources (name : String)
    (region : Option String) (ctx : TransformerContext) :
    (createLambdaFunctionResources name region ctx).2.attachLog =
      ctx.attachLog := by
  simp only [createLambdaFunctionResources]
  rw [attachLog_guardedCreate, attachLog_guardedCreate,
    attachLog_guardedCreate]

/-- Each Resolver Attacher call appends exactly its own invocation record. -/
theorem attachLog_createSidecarResolver (ctx : TransformerContext)
    (functionId dataSourceName typeName fieldName : String) :
    (createSidecarResolver ctx functionId dataSourceName typeName
      fieldName).attachLog =
      ctx.attachLog ++
        [ResolverCall.mk typeName fieldName functionId dataSourceName] := rfl

/-! ## Claim C4 -/

/-- C4: For every annotated type that passes validation, the entry point
invokes the Resolver Attacher exactly five times, in the order
`createT`, `updateT`, `deleteT` (as Mutation fields) then `getT` and the
pluralized `listTs` (as Query fields), every call receiving the same
data-source key and function-configuration key returned by the Resource
Graph Builder. -/
theorem C4_five_resolver_calls (definition : ObjectTypeDefinitionNode)
    (dir : DirectiveNode) (ctx : TransformerContext)
    (h : validateObject definition = Except.ok ()) :
    (object definition dir ctx).2.attachLog =
      ctx.attachLog ++
        [ResolverCall.mk "Mutation" ("create" ++ definition.name)
           (FunctionAppSyncFunctionConfigurationID dir.name dir.region)
           (FunctionDataSourceID dir.name dir.region),
         ResolverCall.mk "Mutation" ("update" ++ definition.name)
           (FunctionAppSyncFunctionConfigurationID dir.name dir.region)
           (FunctionDataSourceID dir.name dir.region),
         ResolverCall.mk "Mutation" ("delete" ++ definition.name)
           (FunctionAppSyncFunctionConfigurationID dir.name dir.region)
           (FunctionDataSourceID dir.name dir.region),
         ResolverCall.mk "Query" ("get" ++ definition.name)
           (FunctionAppSyncFunctionConfigurationID dir.name dir.region)
           (FunctionDataSourceID dir.name dir.region),
         ResolverCall.mk "Query" (plurality ("list" ++ definition.name) true)
           (FunctionAppSyncFunctionConfigurationID dir.name dir.region)
           (FunctionDataSourceID dir.name dir.region)] := by
  have hpair : createLambdaFunctionResources dir.name dir.region ctx =
      (⟨FunctionAppSyncFunctionConfigurationID dir.name dir.region,
        FunctionDataSourceID dir.name dir.region⟩,
       (createLambdaFunctionResources dir.name dir.region ctx).2) := by
    conv_lhs => rw [← Prod.mk.eta
      (p := createLambdaFunctionResources dir.name dir.region ctx)]
    rw [createLambdaFunctionResources_fst]
  unfold object
  rw [h, hpair]
  simp only [attachLog_createSidecarResolver,
    attachLog_createLambdaFunctionResources, List.append_assoc]
  rfl

/-- Witness for C4 at type `Widget`, target `("myFn", none)`, empty
context. -/
theorem C4_witness :
    (validateObject (ObjectTypeDefinitionNode.mk "Widget" (some ["model"]))
      = Except.ok ()) ∧
    ((object (ObjectTypeDefinitionNode.mk "Widget" (some ["model"]))
        (DirectiveNode.mk "myFn" none) TransformerContext.empty).2.attachLog
      =
      TransformerContext.empty.attachLog ++
        [ResolverCall.mk "Mutation" ("create" ++ "Widget")
           (FunctionAppSyncFunctionConfigurationID "myFn" none)
           (FunctionDataSourceID "myFn" none),
         ResolverCall.mk "Mutation" ("update" ++ "Widget")
           (FunctionAppSyncFunctionConfigurationID "myFn" none)
           (FunctionDataSourceID "myFn" none),
         ResolverCall.mk "Mutation" ("delete" ++ "Widget")
           (FunctionAppSyncFunctionConfigurationID "myFn" none)
           (FunctionDataSourceID "myFn" none),
         ResolverCall.mk "Query" ("get" ++ "Widget")
           (FunctionAppSyncFunctionConfigurationID "myFn" none)
           (FunctionDataSourceID "myFn" none),
         ResolverCall.mk "Query" (plurality ("list" ++ "Widget") true)
           (FunctionAppSyncFunctionConfigurationID "myFn" none)
           (FunctionDataSourceID "myFn" none)]) :=
  ⟨rfl,
   C4_five_resolver_calls (ObjectTypeDefinitionNode.mk "Widget"
     (some ["model"])) (DirectiveNode.mk "myFn" none)
     TransformerContext.empty rfl⟩

/-! ## Claim C7 -/

/-- A write log consisting of insert-then-tag pairs, every tag being the
constant stack group `SIDECAR_DIRECTIVE_STACK`, one pair per key. -/
def pairedOps : List String → List RegistryOp
  | [] => []
  | k :: ks =>
    RegistryOp.setResource k ::
      RegistryOp.mapResourceToStack SIDECAR_DIRECTIVE_STACK k :: pairedOps ks

/-- `pairedOps` distributes over concatenation. -/
theorem pairedOps_append (a b : List String) :
    pairedOps (a ++ b) = pairedOps a ++ pairedOps b := by
  induction a with
  | nil => rfl
  | cons k ks ih => simp [pairedOps, ih]

/-- A guarded create appends an insert-then-tag pair exactly when it
creates. -/
theorem opLog_guardedCreate (ctx : TransformerContext) (k : String)
    (r : Resource) :
    (if (ctx.getResource k).isNone then
        (ctx.setResource k r).mapResourceToStack SIDECAR_DIRECTIVE_STACK k
      else ctx).opLog =
      ctx.opLog ++
        pairedOps (if (ctx.getResource k).isNone then [k] else []) := by
  by_cases hc : (ctx.getResource k).isNone = true
  · rw [if_pos hc, if_pos hc]
    simp [TransformerContext.setResource, TransformerContext.mapResourceToStack,
      pairedOps, List.append_assoc]
  · rw [if_neg hc, if_neg hc]
    simp [pairedOps]

/-- The builder only writes insert-then-tag pairs under the constant stack
tag. -/
theorem opLog_createLambdaFunctionResources (name : String)
    (region : Option String) (ctx : TransformerContext) :
    ∃ ks, (createLambdaFunctionResources name region ctx).2.opLog =
      ctx.opLog ++ pairedOps ks := by
  simp only [createLambdaFunctionResources]
  rw [opLog_guardedCreate, opLog_guardedCreate, opLog_guardedCreate,
    List.append_assoc, List.append_assoc, ← pairedOps_append,
    ← pairedOps_append]
  exact ⟨_, rfl⟩

/-- A Resolver Attacher call appends exactly one insert-then-tag pair. -/
theorem opLog_createSidecarResolver (ctx : TransformerContext)
    (functionId dataSourceName typeName fieldName : String) :
    (createSidecarResolver ctx functionId dataSourceName typeName
      fieldName).opLog =
      ctx.opLog ++ pairedOps [sidecarResolverId typeName fieldName] := by
  simp [createSidecarResolver, TransformerContext.setResource,
    TransformerContext.mapResourceToStack, pairedOps, List.append_assoc]

/-- C7: Every registry write the core performs comes as an insertion
immediately followed by a stack tagging of the same key under the single
constant tag `FunctionDirectiveStack`; no insertion goes untagged and no
other tag is ever used: the write log of any entry-point call extends the
previous log by a list of such pairs. -/
theorem C7_every_insert_immediately_tagged
    (definition : ObjectTypeDefinitionNode) (dir : DirectiveNode)
    (ctx : TransformerContext) :
    ∃ ks, (object definition dir ctx).2.opLog =
      ctx.opLog ++ pairedOps ks := by
  unfold object
  cases hval : validateObject definition with
  | error e => exact ⟨[], by simp [pairedOps]⟩
  | ok u =>
    cases u
    have hpair : createLambdaFunctionResources dir.name dir.region ctx =
        (⟨FunctionAppSyncFunctionConfigurationID dir.name dir.region,
          FunctionDataSourceID dir.name dir.region⟩,
         (createLambdaFunctionResources dir.name dir.region ctx).2) := by
      conv_lhs => rw [← Prod.mk.eta
        (p := createLambdaFunctionResources dir.name dir.region ctx)]
      rw [createLambdaFunctionResources_fst]
    rw [hpair]
    obtain ⟨ks0, h0⟩ :=
      opLog_createLambdaFunctionResources dir.name dir.region ctx
    refine ⟨ks0 ++
      [sidecarResolverId "Mutation" ("create" ++ definition.name),
       sidecarResolverId "Mutation" ("update" ++ definition.name),
       sidecarResolverId "Mutation" ("delete" ++ definition.name),
       sidecarResolverId "Query" ("get" ++ definition.name),
       sidecarResolverId "Query"
         (plurality ("list" ++ definition.name) true)], ?_⟩
    simp only [opLog_createSidecarResolver, h0, pairedOps_append,
      pairedOps, List.append_assoc, List.cons_append, List.nil_append]

/-! ## Resolver identifier normal forms and distinctness -/

/-- Normal form of the `create` resolver identifier. -/
theorem sidecarResolverId_create (T : String) :
    sidecarResolverId "Mutation" ("create" ++ T) =
      "MutationCreate" ++ (T ++ "SidecarResolver") := rfl

/-- Normal form of the `update` resolver identifier. -/
theorem sidecarResolverId_update (T : String) :
    sidecarResolverId "Mutation" ("update" ++ T) =
      "MutationUpdate" ++ (T ++ "SidecarResolver") := rfl

/-- Normal form of the `delete` resolver identifier. -/
theorem sidecarResolverId_delete (T : String) :
    sidecarResolverId "Mutation" ("delete" ++ T) =
      "MutationDelete" ++ (T ++ "SidecarResolver") := rfl

/-- Normal form of the `get` resolver identifier. -/
theorem sidecarResolverId_get (T : String) :
    sidecarResolverId "Query" ("get" ++ T) =
      "QueryGet" ++ (T ++ "SidecarResolver") := rfl

/-- Normal form of the `list` resolver identifier. -/
theorem sidecarResolverId_list (T : String) :
    sidecarResolverId "Query" (plurality ("list" ++ T) true) =
      "QueryList" ++ ((T ++ "s") ++ "SidecarResolver") := rfl

/-- Length of the normal forms, for the length-based comparisons. -/
theorem length_append_append (p : String) (T : String) (q : String) :
    (p ++ (T ++ q)).length = p.length + T.length + q.length := by
  rw [String.length_append, String.length_append]
  omega

/-- The five resolver identifiers of one pass are pairwise distinct. -/
theorem sidecarResolverId_pairwise_ne (T : String) :
    (sidecarResolverId "Mutation" ("create" ++ T) ≠
      sidecarResolverId "Mutation" ("update" ++ T)) ∧
    (sidecarResolverId "Mutation" ("create" ++ T) ≠
      sidecarResolverId "Mutation" ("delete" ++ T)) ∧
    (sidecarResolverId "Mutation" ("create" ++ T) ≠
      sidecarResolverId "Query" ("get" ++ T)) ∧
    (sidecarResolverId "Mutation" ("create" ++ T) ≠
      sidecarResolverId "Query" (plurality ("list" ++ T) true)) ∧
    (sidecarResolverId "Mutation" ("update" ++ T) ≠
      sidecarResolverId "Mutation" ("delete" ++ T)) ∧
    (sidecarResolverId "Mutation" ("update" ++ T) ≠
      sidecarResolverId "Query" ("get" ++ T)) ∧
    (sidecarResolverId "Mutation" ("update" ++ T) ≠
      sidecarResolverId "Query" (plurality ("list" ++ T) true)) ∧
    (sidecarResolverId "Mutation" ("delete" ++ T) ≠
      sidecarResolverId "Query" ("get" ++ T)) ∧
    (sidecarResolverId "Mutation" ("delete" ++ T) ≠
      sidecarResolverId "Query" (plurality ("list" ++ T) true)) ∧
    (sidecarResolverId "Query" ("get" ++ T) ≠
      sidecarResolverId "Query" (plurality ("list" ++ T) true)) := by
  rw [sidecarResolverId_create, sidecarResolverId_update,
    sidecarResolverId_delete, sidecarResolverId_get, sidecarResolverId_list]
  have hs : ("SidecarResolver" : String).length = 15 := rfl
  have hss : (("s" : String)).length = 1 := rfl
  refine ⟨?_, ?_, ?_, ?_, ?_, ?_, ?_, ?_, ?_, ?_⟩
  · exact String.prefix_append_ne _ _ rfl (by decide)
  · exact String.prefix_append_ne _ _ rfl (by decide)
  · apply String.ne_of_length_ne
    rw [length_append_append, length_append_append]
    have h1 : ("MutationCreate" : String).length = 14 := rfl
    have h2 : ("QueryGet" : String).length = 8 := rfl
    omega
  · apply String.ne_of_length_ne
    rw [length_append_append, length_append_append, String.length_append]
    have h1 : ("MutationCreate" : String).length = 14 := rfl
    have h2 : ("QueryList" : String).length = 9 := rfl
    omega
  · exact String.prefix_append_ne _ _ rfl (by decide)
  · apply String.ne_of_length_ne
    rw [length_append_append, length_append_append]
    have h1 : ("MutationUpdate" : String).length = 14 := rfl
    have h2 : ("QueryGet" : String).length = 8 := rfl
    omega
  · apply String.ne_of_length_ne
    rw [length_append_append, length_append_append, String.length_append]
    have h1 : ("MutationUpdate" : String).length = 14 := rfl
    have h2 : ("QueryList" : String).length = 9 := rfl
    omega
  · apply String.ne_of_length_ne
    rw [length_append_append, length_append_append]
    have h1 : ("MutationDelete" : String).length = 14 := rfl
    have h2 : ("QueryGet" : String).length = 8 := rfl
    omega
  · apply String.ne_of_length_ne
    rw [length_append_append, length_append_append, String.length_append]
    have h1 : ("MutationDelete" : String).length = 14 := rfl
    have h2 : ("QueryList" : String).length = 9 := rfl
    omega
  · apply String.ne_of_length_ne
    rw [length_append_append, length_append_append, String.length_append]
    have h1 : ("QueryGet" : String).length = 8 := rfl
    have h2 : ("QueryList" : String).length = 9 := rfl
    omega

/-! ## One-pass graph evaluation -/

/-- Evaluation of the builder on the empty context: the three resources are
created in order, tagged, and both keys returned. -/
theorem createLambdaFunctionResources_empty (name : String)
    (region : Option String) :
    createLambdaFunctionResources name region TransformerContext.empty =
      (⟨FunctionAppSyncFunctionConfigurationID name region,
        FunctionDataSourceID name region⟩,
       { resources :=
           [(FunctionIAMRoleID name region, roleResource name region),
            (FunctionDataSourceID name region,
             dataSourceResource name region (FunctionIAMRoleID name region)
               (FunctionDataSourceID name region)),
            (FunctionAppSyncFunctionConfigurationID name region,
             functionConfigResource
               (FunctionAppSyncFunctionConfigurationID name region)
               (FunctionDataSourceID name region))],
         stackMapping :=
           [(FunctionIAMRoleID name region, SIDECAR_DIRECTIVE_STACK),
            (FunctionDataSourceID name region, SIDECAR_DIRECTIVE_STACK),
            (FunctionAppSyncFunctionConfigurationID name region,
             SIDECAR_DIRECTIVE_STACK)],
         opLog :=
           [RegistryOp.setResource (FunctionIAMRoleID name region),
            RegistryOp.mapResourceToStack SIDECAR_DIRECTIVE_STACK
              (FunctionIAMRoleID name region),
            RegistryOp.setResource (FunctionDataSourceID name region),
            RegistryOp.mapResourceToStack SIDECAR_DIRECTIVE_STACK
              (FunctionDataSourceID name region),
            RegistryOp.setResource
              (FunctionAppSyncFunctionConfigurationID name region),
            RegistryOp.mapResourceToStack SIDECAR_DIRECTIVE_STACK
              (FunctionAppSyncFunctionConfigurationID name region)],
         attachLog := [] }) := by
  have h12 : (FunctionIAMRoleID name region ==
      FunctionDataSourceID name region) = false :=
    beq_eq_false_iff_ne.mpr
      (Ne.symm (FunctionDataSourceID_ne_FunctionIAMRoleID name region))
  have h13 : (FunctionIAMRoleID name region ==
      FunctionAppSyncFunctionConfigurationID name region) = false :=
    beq_eq_false_iff_ne.mpr
      (FunctionIAMRoleID_ne_FunctionAppSyncFunctionConfigurationID name
        region)
  have h23 : (FunctionDataSourceID name region ==
      FunctionAppSyncFunctionConfigurationID name region) = false :=
    beq_eq_false_iff_ne.mpr
      (FunctionDataSourceID_ne_FunctionAppSyncFunctionConfigurationID name
        region)
  simp only [createLambdaFunctionResources]
  have hc1 : (TransformerContext.empty.getResource
      (FunctionIAMRoleID name region)).isNone = true := rfl
  rw [if_pos hc1]
  have hc2 : (((TransformerContext.empty.setResource
      (FunctionIAMRoleID name region)
      (roleResource name region)).mapResourceToStack SIDECAR_DIRECTIVE_STACK
      (FunctionIAMRoleID name region)).getResource
      (FunctionDataSourceID name region)).isNone = true := by
    rw [getResource_mapResourceToStack, getResource_setResource_ne _ _
      (FunctionDataSourceID_ne_FunctionIAMRoleID name region)]
    rfl
  rw [if_pos hc2]
  have hc3 : (((((TransformerContext.empty.setResource
      (FunctionIAMRoleID name region)
      (roleResource name region)).mapResourceToStack SIDECAR_DIRECTIVE_STACK
      (FunctionIAMRoleID name region)).setResource
      (FunctionDataSourceID name region)
      (dataSourceResource name region (FunctionIAMRoleID name region)
        (FunctionDataSourceID name region))).mapResourceToStack
      SIDECAR_DIRECTIVE_STACK
      (FunctionDataSourceID name region)).getResource
      (FunctionAppSyncFunctionConfigurationID name region)).isNone
      = true := by
    rw [getResource_mapResourceToStack, getResource_setResource_ne _ _
      (Ne.symm (FunctionDataSourceID_ne_FunctionAppSyncFunctionConfigurationID
        name region)),
      getResource_mapResourceToStack, getResource_setResource_ne _ _
      (Ne.symm (FunctionIAMRoleID_ne_FunctionAppSyncFunctionConfigurationID
        name region))]
    rfl
  rw [if_pos hc3]
  simp [TransformerContext.setResource, TransformerContext.mapResourceToStack,
    TransformerContext.empty, setEntry, h12, h13, h23]

/-- A resolver identifier never equals a role key. -/
theorem sidecarResolverId_ne_FunctionIAMRoleID (t f name : String)
    (region : Option String) :
    sidecarResolverId t f ≠ FunctionIAMRoleID name region :=
  sidecarSuffix_ne_FunctionIAMRoleID (t ++ capitalizeFirst f) name region

/-- A resolver identifier never equals a data-source key. -/
theorem sidecarResolverId_ne_FunctionDataSourceID (t f name : String)
    (region : Option String) :
    sidecarResolverId t f ≠ FunctionDataSourceID name region :=
  sidecarSuffix_ne_FunctionDataSourceID (t ++ capitalizeFirst f) name region

/-- A resolver identifier never equals a function-configuration key. -/
theorem sidecarResolverId_ne_FunctionAppSyncFunctionConfigurationID
    (t f name : String) (region : Option String) :
    sidecarResolverId t f ≠
      FunctionAppSyncFunctionConfigurationID name region :=
  sidecarSuffix_ne_FunctionAppSyncFunctionConfigurationID
    (t ++ capitalizeFirst f) name region

/-- Attaching a resolver to a registry not holding its identifier appends
exactly one entry. -/
theorem resources_createSidecarResolver (ctx : TransformerContext)
    (functionId dataSourceName typeName fieldName : String)
    (h : ctx.resources.any
      (fun p => p.1 == sidecarResolverId typeName fieldName) = false) :
    (createSidecarResolver ctx functionId dataSourceName typeName
      fieldName).resources =
      ctx.resources ++
        [(sidecarResolverId typeName fieldName,
          resolverResource functionId dataSourceName typeName fieldName)] := by
  unfold createSidecarResolver
  show setEntry ctx.resources (sidecarResolverId typeName fieldName) _ = _
  unfold setEntry
  rw [if_neg (not_any_of_eq_false h)]

/-! ## Claim C3 -/

/-- The C3 property: in the graph built by one directive-processing pass
from an empty registry, the recorded dependency edges are exactly
Role → none, DataSource → Role, FunctionConfig → DataSource and
Resolver → FunctionConfig for each of the five resolvers; and every
dependency of an entry points at an entry strictly earlier in insertion
order, so the insertion order is a topological order and the edges form a
DAG. -/
def C3Statement (definition : ObjectTypeDefinitionNode)
    (dir : DirectiveNode) : Prop :=
  ((object definition dir TransformerContext.empty).2.resources.map
      (fun p => (p.1, p.2.dependsOn)) =
    [(FunctionIAMRoleID dir.name dir.region, []),
     (FunctionDataSourceID dir.name dir.region,
      [FunctionIAMRoleID dir.name dir.region]),
     (FunctionAppSyncFunctionConfigurationID dir.name dir.region,
      [FunctionDataSourceID dir.name dir.region]),
     (sidecarResolverId "Mutation" ("create" ++ definition.name),
      [FunctionAppSyncFunctionConfigurationID dir.name dir.region]),
     (sidecarResolverId "Mutation" ("update" ++ definition.name),
      [FunctionAppSyncFunctionConfigurationID dir.name dir.region]),
     (sidecarResolverId "Mutation" ("delete" ++ definition.name),
      [FunctionAppSyncFunctionConfigurationID dir.name dir.region]),
     (sidecarResolverId "Query" ("get" ++ definition.name),
      [FunctionAppSyncFunctionConfigurationID dir.name dir.region]),
     (sidecarResolverId "Query" (plurality ("list" ++ definition.name) true),
      [FunctionAppSyncFunctionConfigurationID dir.name dir.region])]) ∧
  (∀ i ki ri,
    (object definition dir TransformerContext.empty).2.resources.get? i =
      some (ki, ri) →
    ∀ d ∈ ri.dependsOn,
    ∃ j, j < i ∧ ∃ rj,
      (object definition dir TransformerContext.empty).2.resources.get? j =
        some (d, rj))

/-- Attaching the five operation resolvers to a registry holding exactly the
role, data-source and function-configuration entries appends the five
resolver entries in order. -/
theorem resources_after_five_resolvers (ctx : TransformerContext)
    (T name : String) (region : Option String)
    (hres : ctx.resources =
      [(FunctionIAMRoleID name region, roleResource name region),
       (FunctionDataSourceID name region,
        dataSourceResource name region (FunctionIAMRoleID name region)
          (FunctionDataSourceID name region)),
       (FunctionAppSyncFunctionConfigurationID name region,
        functionConfigResource
          (FunctionAppSyncFunctionConfigurationID name region)
          (FunctionDataSourceID name region))]) :
    (createSidecarResolver
      (createSidecarResolver
        (createSidecarResolver
          (createSidecarResolver
            (createSidecarResolver ctx
              (FunctionAppSyncFunctionConfigurationID name region)
              (FunctionDataSourceID name region)
              "Mutation" ("create" ++ T))
            (FunctionAppSyncFunctionConfigurationID name region)
            (FunctionDataSourceID name region)
            "Mutation" ("update" ++ T))
          (FunctionAppSyncFunctionConfigurationID name region)
          (FunctionDataSourceID name region)
          "Mutation" ("delete" ++ T))
        (FunctionAppSyncFunctionConfigurationID name region)
        (FunctionDataSourceID name region)
        "Query" ("get" ++ T))
      (FunctionAppSyncFunctionConfigurationID name region)
      (FunctionDataSourceID name region)
      "Query" (plurality ("list" ++ T) true)).resources =
      [(FunctionIAMRoleID name region, roleResource name region),
       (FunctionDataSourceID name region,
        dataSourceResource name region (FunctionIAMRoleID name region)
          (FunctionDataSourceID name region)),
       (FunctionAppSyncFunctionConfigurationID name region,
        functionConfigResource
          (FunctionAppSyncFunctionConfigurationID name region)
          (FunctionDataSourceID name region)),
       (sidecarResolverId "Mutation" ("create" ++ T),
        resolverResource (FunctionAppSyncFunctionConfigurationID name region)
          (FunctionDataSourceID name region) "Mutation" ("create" ++ T)),
       (sidecarResolverId "Mutation" ("update" ++ T),
        resolverResource (FunctionAppSyncFunctionConfigurationID name region)
          (FunctionDataSourceID name region) "Mutation" ("update" ++ T)),
       (sidecarResolverId "Mutation" ("delete" ++ T),
        resolverResource (FunctionAppSyncFunctionConfigurationID name region)
          (FunctionDataSourceID name region) "Mutation" ("delete" ++ T)),
       (sidecarResolverId "Query" ("get" ++ T),
        resolverResource (FunctionAppSyncFunctionConfigurationID name region)
          (FunctionDataSourceID name region) "Query" ("get" ++ T)),
       (sidecarResolverId "Query" (plurality ("list" ++ T) true),
        resolverResource (FunctionAppSyncFunctionConfigurationID name region)
          (FunctionDataSourceID name region) "Query"
          (plurality ("list" ++ T) true))] := by
  obtain ⟨ne12, ne13, ne14, ne15, ne23, ne24, ne25, ne34, ne35, ne45⟩ :=
    sidecarResolverId_pairwise_ne T
  have b1c := beq_eq_false_iff_ne.mpr (Ne.symm
    (sidecarResolverId_ne_FunctionIAMRoleID "Mutation" ("create" ++ T)
      name region))
  have b2c := beq_eq_false_iff_ne.mpr (Ne.symm
    (sidecarResolverId_ne_FunctionDataSourceID "Mutation" ("create" ++ T)
      name region))
  have b3c := beq_eq_false_iff_ne.mpr (Ne.symm
    (sidecarResolverId_ne_FunctionAppSyncFunctionConfigurationID "Mutation"
      ("create" ++ T) name region))
  have b1u := beq_eq_false_iff_ne.mpr (Ne.symm
    (sidecarResolverId_ne_FunctionIAMRoleID "Mutation" ("update" ++ T)
      name region))
  have b2u := beq_eq_false_iff_ne.mpr (Ne.symm
    (sidecarResolverId_ne_FunctionDataSourceID "Mutation" ("update" ++ T)
      name region))
  have b3u := beq_eq_false_iff_ne.mpr (Ne.symm
    (sidecarResolverId_ne_FunctionAppSyncFunctionConfigurationID "Mutation"
      ("update" ++ T) name region))
  have b1d := beq_eq_false_iff_ne.mpr (Ne.symm
    (sidecarResolverId_ne_FunctionIAMRoleID "Mutation" ("delete" ++ T)
      name region))
  have b2d := beq_eq_false_iff_ne.mpr (Ne.symm
    (sidecarResolverId_ne_FunctionDataSourceID "Mutation" ("delete" ++ T)
      name region))
  have b3d := beq_eq_false_iff_ne.mpr (Ne.symm
    (sidecarResolverId_ne_FunctionAppSyncFunctionConfigurationID "Mutation"
      ("delete" ++ T) name region))
  have b1g := beq_eq_false_iff_ne.mpr (Ne.symm
    (sidecarResolverId_ne_FunctionIAMRoleID "Query" ("get" ++ T)
      name region))
  have b2g := beq_eq_false_iff_ne.mpr (Ne.symm
    (sidecarResolverId_ne_FunctionDataSourceID "Query" ("get" ++ T)
      name region))
  have b3g := beq_eq_false_iff_ne.mpr (Ne.symm
    (sidecarResolverId_ne_FunctionAppSyncFunctionConfigurationID "Query"
      ("get" ++ T) name region))
  have b1l := beq_eq_false_iff_ne.mpr (Ne.symm
    (sidecarResolverId_ne_FunctionIAMRoleID "Query"
      (plurality ("list" ++ T) true) name region))
  have b2l := beq_eq_false_iff_ne.mpr (Ne.symm
    (sidecarResolverId_ne_FunctionDataSourceID "Query"
      (plurality ("list" ++ T) true) name region))
  have b3l := beq_eq_false_iff_ne.mpr (Ne.symm
    (sidecarResolverId_ne_FunctionAppSyncFunctionConfigurationID "Query"
      (plurality ("list" ++ T) true) name region))
  have bcu := beq_eq_false_iff_ne.mpr ne12
  have bcd := beq_eq_false_iff_ne.mpr ne13
  have bcg := beq_eq_false_iff_ne.mpr ne14
  have bcl := beq_eq_false_iff_ne.mpr ne15
  have bud := beq_eq_false_iff_ne.mpr ne23
  have bug := beq_eq_false_iff_ne.mpr ne24
  have bul := beq_eq_false_iff_ne.mpr ne25
  have bdg := beq_eq_false_iff_ne.mpr ne34
  have bdl := beq_eq_false_iff_ne.mpr ne35
  have bgl := beq_eq_false_iff_ne.mpr ne45
  have e1 := resources_createSidecarResolver ctx
    (FunctionAppSyncFunctionConfigurationID name region)
    (FunctionDataSourceID name region) "Mutation" ("create" ++ T)
    (by rw [hres]
        simp [b1c, b2c, b3c])
  have e2 := resources_createSidecarResolver
    (createSidecarResolver ctx
      (FunctionAppSyncFunctionConfigurationID name region)
      (FunctionDataSourceID name region) "Mutation" ("create" ++ T))
    (FunctionAppSyncFunctionConfigurationID name region)
    (FunctionDataSourceID name region) "Mutation" ("update" ++ T)
    (by rw [e1, hres]
        simp [b1u, b2u, b3u, bcu])
  have e3 := resources_createSidecarResolver
    (createSidecarResolver
      (createSidecarResolver ctx
        (FunctionAppSyncFunctionConfigurationID name region)
        (FunctionDataSourceID name region) "Mutation" ("create" ++ T))
      (FunctionAppSyncFunctionConfigurationID name region)
      (FunctionDataSourceID name region) "Mutation" ("update" ++ T))
    (FunctionAppSyncFunctionConfigurationID name region)
    (FunctionDataSourceID name region) "Mutation" ("delete" ++ T)
    (by rw [e2, e1, hres]
        simp [b1d, b2d, b3d, bcd, bud])
  have e4 := resources_createSidecarResolver
    (createSidecarResolver
      (createSidecarResolver
        (createSidecarResolver ctx
          (FunctionAppSyncFunctionConfigurationID name region)
          (FunctionDataSourceID name region) "Mutation" ("create" ++ T))
        (FunctionAppSyncFunctionConfigurationID name region)
        (FunctionDataSourceID name region) "Mutation" ("update" ++ T))
      (FunctionAppSyncFunctionConfigurationID name region)
      (FunctionDataSourceID name region) "Mutation" ("delete" ++ T))
    (FunctionAppSyncFunctionConfigurationID name region)
    (FunctionDataSourceID name region) "Query" ("get" ++ T)
    (by rw [e3, e2, e1, hres]
        simp [b1g, b2g, b3g, bcg, bug, bdg])
  have e5 := resources_createSidecarResolver
    (createSidecarResolver
      (createSidecarResolver
        (createSidecarResolver
          (createSidecarResolver ctx
            (FunctionAppSyncFunctionConfigurationID name region)
            (FunctionDataSourceID name region) "Mutation" ("create" ++ T))
          (FunctionAppSyncFunctionConfigurationID name region)
          (FunctionDataSourceID name region) "Mutation" ("update" ++ T))
        (FunctionAppSyncFunctionConfigurationID name region)
        (FunctionDataSourceID name region) "Mutation" ("delete" ++ T))
      (FunctionAppSyncFunctionConfigurationID name region)
      (FunctionDataSourceID name region) "Query" ("get" ++ T))
    (FunctionAppSyncFunctionConfigurationID name region)
    (FunctionDataSourceID name region) "Query" (plurality ("list" ++ T) true)
    (by rw [e4, e3, e2, e1, hres]
        simp [b1l, b2l, b3l, bcl, bul, bdl, bgl])
  rw [e5, e4, e3, e2, e1, hres]
  simp [List.append_assoc]

/-- Full evaluation of the registry contents of one pass from the empty
context. -/
theorem object_empty_resources (definition : ObjectTypeDefinitionNode)
    (dir : DirectiveNode) (h : validateObject definition = Except.ok ()) :
    (object definition dir TransformerContext.empty).2.resources =
      [(FunctionIAMRoleID dir.name dir.region,
        roleResource dir.name dir.region),
       (FunctionDataSourceID dir.name dir.region,
        dataSourceResource dir.name dir.region
          (FunctionIAMRoleID dir.name dir.region)
          (FunctionDataSourceID dir.name dir.region)),
       (FunctionAppSyncFunctionConfigurationID dir.name dir.region,
        functionConfigResource
          (FunctionAppSyncFunctionConfigurationID dir.name dir.region)
          (FunctionDataSourceID dir.name dir.region)),
       (sidecarResolverId "Mutation" ("create" ++ definition.name),
        resolverResource
          (FunctionAppSyncFunctionConfigurationID dir.name dir.region)
          (FunctionDataSourceID dir.name dir.region)
          "Mutation" ("create" ++ definition.name)),
       (sidecarResolverId "Mutation" ("update" ++ definition.name),
        resolverResource
          (FunctionAppSyncFunctionConfigurationID dir.name dir.region)
          (FunctionDataSourceID dir.name dir.region)
          "Mutation" ("update" ++ definition.name)),
       (sidecarResolverId "Mutation" ("delete" ++ definition.name),
        resolverResource
          (FunctionAppSyncFunctionConfigurationID dir.name dir.region)
          (FunctionDataSourceID dir.name dir.region)
          "Mutation" ("delete" ++ definition.name)),
       (sidecarResolverId "Query" ("get" ++ definition.name),
        resolverResource
          (FunctionAppSyncFunctionConfigurationID dir.name dir.region)
          (FunctionDataSourceID dir.name dir.region)
          "Query" ("get" ++ definition.name)),
       (sidecarResolverId "Query"
          (plurality ("list" ++ definition.name) true),
        resolverResource
          (FunctionAppSyncFunctionConfigurationID dir.name dir.region)
          (FunctionDataSourceID dir.name dir.region)
          "Query" (plurality ("list" ++ definition.name) true))] := by
  unfold object
  rw [h, createLambdaFunctionResources_empty]
  exact resources_after_five_resolvers _ definition.name dir.name
    dir.region rfl

/-- C3: In every graph built by one directive-processing pass, the recorded
dependency edges are exactly Role → none, DataSource → Role,
FunctionConfig → DataSource, and Resolver → FunctionConfig for every
resolver; every dependency points to a strictly earlier registry entry, so
insertion order is a topological order (Role before DataSource before
FunctionConfig before every Resolver) and the edges form a DAG. -/
theorem C3_dependency_edges_dag (definition : ObjectTypeDefinitionNode)
    (dir : DirectiveNode) (h : validateObject definition = Except.ok ()) :
    C3Statement definition dir := by
  have hres := object_empty_resources definition dir h
  unfold C3Statement
  constructor
  · rw [hres]
    simp [Resource.dependsOn, roleResource, dataSourceResource,
      functionConfigResource, resolverResource]
  · intro i ki ri hget d hd
    rw [hres] at hget
    rw [hres]
    have hlen : i < 8 := by
      by_contra hge
      push_neg at hge
      rw [List.get?_eq_none.mpr (by simpa using hge)] at hget
      cases hget
    interval_cases i
    · obtain ⟨hk, hr⟩ := Prod.mk.inj (Option.some.inj hget)
      subst hk; subst hr
      simp [roleResource, Resource.dependsOn] at hd
    · obtain ⟨hk, hr⟩ := Prod.mk.inj (Option.some.inj hget)
      subst hk; subst hr
      simp [dataSourceResource, Resource.dependsOn] at hd
      subst hd
      exact ⟨0, by omega, roleResource dir.name dir.region, rfl⟩
    · obtain ⟨hk, hr⟩ := Prod.mk.inj (Option.some.inj hget)
      subst hk; subst hr
      simp [functionConfigResource, Resource.dependsOn] at hd
      subst hd
      exact ⟨1, by omega,
        dataSourceResource dir.name dir.region
          (FunctionIAMRoleID dir.name dir.region)
          (FunctionDataSourceID dir.name dir.region), rfl⟩
    · obtain ⟨hk, hr⟩ := Prod.mk.inj (Option.some.inj hget)
      subst hk; subst hr
      simp [resolverResource, Resource.dependsOn] at hd
      subst hd
      exact ⟨2, by omega,
        functionConfigResource
          (FunctionAppSyncFunctionConfigurationID dir.name dir.region)
          (FunctionDataSourceID dir.name dir.region), rfl⟩
    · obtain ⟨hk, hr⟩ := Prod.mk.inj (Option.some.inj hget)
      subst hk; subst hr
      simp [resolverResource, Resource.dependsOn] at hd
      subst hd
      exact ⟨2, by omega,
        functionConfigResource
          (FunctionAppSyncFunctionConfigurationID dir.name dir.region)
          (FunctionDataSourceID dir.name dir.region), rfl⟩
    · obtain ⟨hk, hr⟩ := Prod.mk.inj (Option.some.inj hget)
      subst hk; subst hr
      simp [resolverResource, Resource.dependsOn] at hd
      subst hd
      exact ⟨2, by omega,
        functionConfigResource
          (FunctionAppSyncFunctionConfigurationID dir.name dir.region)
          (FunctionDataSourceID dir.name dir.region), rfl⟩
    · obtain ⟨hk, hr⟩ := Prod.mk.inj (Option.some.inj hget)
      subst hk; subst hr
      simp [resolverResource, Resource.dependsOn] at hd
      subst hd
      exact ⟨2, by omega,
        functionConfigResource
          (FunctionAppSyncFunctionConfigurationID dir.name dir.region)
          (FunctionDataSourceID dir.name dir.region), rfl⟩
    · obtain ⟨hk, hr⟩ := Prod.mk.inj (Option.some.inj hget)
      subst hk; subst hr
      simp [resolverResource, Resource.dependsOn] at hd
      subst hd
      exact ⟨2, by omega,
        functionConfigResource
          (FunctionAppSyncFunctionConfigurationID dir.name dir.region)
          (FunctionDataSourceID dir.name dir.region), rfl⟩

/-- Witness for C3 at type `Widget`, target `("myFn", none)`. -/
theorem C3_witness :
    C3Statement (ObjectTypeDefinitionNode.mk "Widget" (some ["model"]))
      (DirectiveNode.mk "myFn" none) :=
  C3_dependency_edges_dag (ObjectTypeDefinitionNode.mk "Widget"
    (some ["model"])) (DirectiveNode.mk "myFn" none) rfl
